import Mathlib

/-!
Verification development for the `pura` container runtime
(`src/main.rs`, `src/core/ipc.rs`).

The Rust code is shallowly embedded: pure data flow becomes Lean
functions, syscall effects become explicit parameters (the outcome of
each fallible syscall) and explicit state (the set of bound socket
files and open descriptors), and Rust `String` values become `List
Char` at the byte/codec level and Lean `String` at the orchestration
level.  Machine integers that appear (pids, fds, byte values, unicode
scalar values) are modelled as `Nat`; no overflow is relevant at the
values involved (pids and fds are small positives, bytes are `< 256`).
-/

namespace Pura

/-! ## UTF-8 byte model

`IpcChild::notify` writes the raw UTF-8 bytes of a Rust `String`;
`IpcParent::wait` reads bytes and runs `std::str::from_utf8`.  A Rust
`String` is a sequence of unicode scalar values, modelled as
`List Char` (Lean's `Char` is exactly a unicode scalar value).  Bytes
are `Nat` (values `< 256`).  The encoder below is the standard UTF-8
encoding of a scalar value; the decoder accepts exactly well-formed
UTF-8 (rejecting stray or missing continuation bytes, overlong forms,
surrogates, and values above U+10FFFF), the same set accepted by
`std::str::from_utf8`. -/

/-- UTF-8 encoding of one unicode scalar value, as its list of bytes. -/
def utf8EncodeChar (c : Char) : List Nat :=
  if c.toNat < 0x80 then [c.toNat]
  else if c.toNat < 0x800 then [0xC0 + c.toNat / 64, 0x80 + c.toNat % 64]
  else if c.toNat < 0x10000 then
    [0xE0 + c.toNat / 4096, 0x80 + c.toNat / 64 % 64, 0x80 + c.toNat % 64]
  else
    [0xF0 + c.toNat / 262144, 0x80 + c.toNat / 4096 % 64,
      0x80 + c.toNat / 64 % 64, 0x80 + c.toNat % 64]

/-- UTF-8 encoding of a string (list of scalar values) as a byte list. -/
def utf8Encode : List Char → List Nat
  | [] => []
  | c :: cs => utf8EncodeChar c ++ utf8Encode cs

/-- Is `b` a UTF-8 continuation byte (`0b10xxxxxx`)? -/
def isContByte (b : Nat) : Bool :=
  decide (0x80 ≤ b) && decide (b < 0xC0)

/-- Fold one continuation byte into the accumulated scalar value. -/
def contAccum (acc b : Nat) : Nat := acc * 64 + (b - 0x80)

/-- Final validity check for a decoded multi-byte sequence: not
overlong (`minV ≤ v`), not a surrogate, not above U+10FFFF. -/
def validFinal (minV v : Nat) : Bool :=
  decide (minV ≤ v) && !(decide (0xD800 ≤ v) && decide (v < 0xE000)) &&
    decide (v < 0x110000)

/-- UTF-8 decoding state machine.  `none`: at a character boundary;
`some (need, acc, minV)`: expecting `need ≥ 1` more continuation
bytes, with accumulated value `acc` and overlong threshold `minV`. -/
def utf8DecAux : Option (Nat × Nat × Nat) → List Nat → Option (List Char)
  | none, [] => some []
  | none, b0 :: rest =>
    if b0 < 0x80 then
      (utf8DecAux none rest).map (fun cs => Char.ofNat b0 :: cs)
    else if b0 < 0xC0 then none
    else if b0 < 0xE0 then utf8DecAux (some (1, b0 - 0xC0, 0x80)) rest
    else if b0 < 0xF0 then utf8DecAux (some (2, b0 - 0xE0, 0x800)) rest
    else if b0 < 0xF8 then utf8DecAux (some (3, b0 - 0xF0, 0x10000)) rest
    else none
  | some _, [] => none
  | some (need, acc, minV), b :: rest =>
    if isContByte b then
      if need ≤ 1 then
        if validFinal minV (contAccum acc b) then
          (utf8DecAux none rest).map
            (fun cs => Char.ofNat (contAccum acc b) :: cs)
        else none
      else utf8DecAux (some (need - 1, contAccum acc b, minV)) rest
    else none

/-- UTF-8 decoder/validator over a byte list, as performed by
`std::str::from_utf8`: `none` exactly on ill-formed input. -/
def utf8Decode (bs : List Nat) : Option (List Char) := utf8DecAux none bs

/-! ## Rust `str::trim`

`str::trim` strips characters with the Unicode `White_Space` property
from both ends (`char::is_whitespace`). -/

/-- The Unicode `White_Space` property, as used by Rust
`char::is_whitespace`. -/
def isRustWhitespace (c : Char) : Bool :=
  (decide (0x09 ≤ c.toNat) && decide (c.toNat ≤ 0x0D)) ||
  decide (c.toNat = 0x20) || decide (c.toNat = 0x85) ||
  decide (c.toNat = 0xA0) || decide (c.toNat = 0x1680) ||
  (decide (0x2000 ≤ c.toNat) && decide (c.toNat ≤ 0x200A)) ||
  decide (c.toNat = 0x2028) || decide (c.toNat = 0x2029) ||
  decide (c.toNat = 0x202F) || decide (c.toNat = 0x205F) ||
  decide (c.toNat = 0x3000)

/-- Rust `str::trim`: drop leading and trailing whitespace. -/
def trimStr (s : List Char) : List Char :=
  ((s.dropWhile isRustWhitespace).reverse.dropWhile isRustWhitespace).reverse

/-! ## Codec correctness -/

theorem utf8Encode_append (xs ys : List Char) :
    utf8Encode (xs ++ ys) = utf8Encode xs ++ utf8Encode ys := by
  induction xs with
  | nil => rfl
  | cons c cs ih => simp [utf8Encode, ih]

/-- Decoding an encoded character prepended to any byte tail peels off
exactly that character. -/
theorem utf8Decode_encodeChar_append (c : Char) (bs : List Nat) :
    utf8Decode (utf8EncodeChar c ++ bs) =
      (utf8Decode bs).map (fun cs => c :: cs) := by
  have hvalid : c.toNat.isValidChar := c.valid
  have hofnat : Char.ofNat c.toNat = c := Char.ofNat_toNat c
  have hnosur : ¬ (0xD800 ≤ c.toNat ∧ c.toNat < 0xE000) := by
    rcases hvalid with h | ⟨h1, h2⟩ <;> omega
  have hmax : c.toNat < 0x110000 := by
    rcases hvalid with h | ⟨h1, h2⟩ <;> omega
  by_cases h1 : c.toNat < 0x80
  · rw [utf8EncodeChar, if_pos h1]
    show utf8DecAux none (c.toNat :: bs) = _
    rw [utf8DecAux, if_pos h1, hofnat]
    rfl
  · by_cases h2 : c.toNat < 0x800
    · -- two-byte form
      rw [utf8EncodeChar, if_neg h1, if_pos h2]
      show utf8DecAux none ((0xC0 + c.toNat / 64) :: (0x80 + c.toNat % 64) :: bs) = _
      rw [utf8DecAux, if_neg (by omega), if_neg (by omega), if_pos (by omega)]
      rw [utf8DecAux, if_pos (by simp [isContByte]; omega), if_pos (by omega),
        if_pos ?hval]
      case hval =>
        have hacc : contAccum (0xC0 + c.toNat / 64 - 0xC0) (0x80 + c.toNat % 64)
            = c.toNat := by
          simp only [contAccum]; omega
        rw [hacc]
        simp only [validFinal, Bool.and_eq_true, Bool.not_eq_true',
          Bool.and_eq_false_iff, decide_eq_true_eq, decide_eq_false_iff_not,
          not_le, not_lt]
        refine ⟨⟨by omega, ?_⟩, by omega⟩
        omega
      have hacc : contAccum (0xC0 + c.toNat / 64 - 0xC0) (0x80 + c.toNat % 64)
          = c.toNat := by
        simp only [contAccum]; omega
      rw [hacc, hofnat]
      rfl
    · by_cases h3 : c.toNat < 0x10000
      · -- three-byte form
        rw [utf8EncodeChar, if_neg h1, if_neg h2, if_pos h3]
        show utf8DecAux none ((0xE0 + c.toNat / 4096) :: (0x80 + c.toNat / 64 % 64)
          :: (0x80 + c.toNat % 64) :: bs) = _
        rw [utf8DecAux, if_neg (by omega), if_neg (by omega), if_neg (by omega),
          if_pos (by omega)]
        rw [utf8DecAux, if_pos (by simp [isContByte]; omega), if_neg (by omega)]
        have hacc1 : contAccum (0xE0 + c.toNat / 4096 - 0xE0) (0x80 + c.toNat / 64 % 64)
            = c.toNat / 64 := by
          simp only [contAccum]; omega
        rw [hacc1]
        rw [utf8DecAux, if_pos (by simp [isContByte]; omega), if_pos (by omega),
          if_pos ?hval3]
        case hval3 =>
          have hacc2 : contAccum (c.toNat / 64) (0x80 + c.toNat % 64) = c.toNat := by
            simp only [contAccum]; omega
          rw [hacc2]
          simp only [validFinal, Bool.and_eq_true, Bool.not_eq_true',
            Bool.and_eq_false_iff, decide_eq_true_eq, decide_eq_false_iff_not,
            not_le, not_lt]
          refine ⟨⟨by omega, ?_⟩, by omega⟩
          omega
        have hacc2 : contAccum (c.toNat / 64) (0x80 + c.toNat % 64) = c.toNat := by
          simp only [contAccum]; omega
        rw [hacc2, hofnat]
        rfl
      · -- four-byte form
        rw [utf8EncodeChar, if_neg h1, if_neg h2, if_neg h3]
        show utf8DecAux none ((0xF0 + c.toNat / 262144) :: (0x80 + c.toNat / 4096 % 64)
          :: (0x80 + c.toNat / 64 % 64) :: (0x80 + c.toNat % 64) :: bs) = _
        rw [utf8DecAux, if_neg (by omega), if_neg (by omega), if_neg (by omega),
          if_neg (by omega), if_pos (by omega)]
        rw [utf8DecAux, if_pos (by simp [isContByte]; omega), if_neg (by omega)]
        have hacc1 : contAccum (0xF0 + c.toNat / 262144 - 0xF0)
            (0x80 + c.toNat / 4096 % 64) = c.toNat / 4096 := by
          simp only [contAccum]; omega
        rw [hacc1]
        rw [utf8DecAux, if_pos (by simp [isContByte]; omega), if_neg (by omega)]
        have hacc2 : contAccum (c.toNat / 4096) (0x80 + c.toNat / 64 % 64)
            = c.toNat / 64 := by
          simp only [contAccum]; omega
        rw [hacc2]
        rw [utf8DecAux, if_pos (by simp [isContByte]; omega), if_pos (by omega),
          if_pos ?hval4]
        case hval4 =>
          have hacc3 : contAccum (c.toNat / 64) (0x80 + c.toNat % 64) = c.toNat := by
            simp only [contAccum]; omega
          rw [hacc3]
          simp only [validFinal, Bool.and_eq_true, Bool.not_eq_true',
            Bool.and_eq_false_iff, decide_eq_true_eq, decide_eq_false_iff_not,
            not_le, not_lt]
          refine ⟨⟨by omega, ?_⟩, by omega⟩
          omega
        have hacc3 : contAccum (c.toNat / 64) (0x80 + c.toNat % 64) = c.toNat := by
          simp only [contAccum]; omega
        rw [hacc3, hofnat]
        rfl

/-- Round trip: decoding an encoded string yields the string back. -/
theorem utf8Decode_utf8Encode (m : List Char) :
    utf8Decode (utf8Encode m) = some m := by
  induction m with
  | nil => rfl
  | cons c cs ih =>
    show utf8Decode (utf8EncodeChar c ++ utf8Encode cs) = _
    rw [utf8Decode_encodeChar_append, ih]
    rfl

/-! ## Errors (`src/core/common.rs`, by its use in `src/core/ipc.rs`)

Every fallible IPC operation returns `Result<_, Error>` with
`err_type: ErrorType::Runtime` and a fixed message. -/

/-- Model of `ErrorType` from `core::common` (only `Runtime` appears in the
embedded code; `Spec` is the config-error variant). -/
inductive ErrType
  | Runtime
  | SpecError
deriving DecidableEq

/-- Model of `core::common::Error`: a message plus an error type. -/
structure PError where
  msg : String
  err_type : ErrType
deriving DecidableEq

/-! ## IPC rendezvous model (`src/core/ipc.rs`)

The kernel state visible to the IPC code is modelled explicitly:
`files` is the set of filesystem paths currently holding a bound
socket file, `openFds` the set of open socket descriptors, `nextFd`
the next descriptor the kernel would hand out.  `bind(2)` on an
AF_UNIX path fails (`EADDRINUSE`) iff a file already exists at the
path; this is the one bind failure mode the model represents. -/

/-- Kernel state seen by the IPC layer. -/
structure SockWorld where
  files : List String
  openFds : List Nat
  nextFd : Nat
deriving DecidableEq

/-- Model of `IpcParent`: the listening fd and the bound path. -/
structure IpcParent where
  fd : Nat
  sock_path : String
deriving DecidableEq

/-- Model of `IpcParent::new(path)`: create a SEQPACKET socket, bind it to
`path` (failing with a `Runtime` error if a socket file already
occupies the path), and listen. -/
def ipcParentNew (path : String) (w : SockWorld) :
    Except PError (IpcParent × SockWorld) :=
  if path ∈ w.files then
    .error ⟨"unable to bind IPC socket", .Runtime⟩
  else
    .ok (⟨w.nextFd, path⟩,
      ⟨path :: w.files, w.nextFd :: w.openFds, w.nextFd + 1⟩)

/-- Outcome of `IpcParent::wait`: `Ok(String)`, `Err(Error)` with a
`Runtime` error, or a Rust panic (an `unwrap` on an `Err`). -/
inductive WaitOutcome
  | ok (s : List Char)
  | errRuntime (msg : String)
  | panic
deriving DecidableEq

/-- Model of `IpcParent::wait`: accept one connection (syscall outcome
`acceptOk`), then `read` into a 1024-byte buffer.  `readRes` is the
read outcome: `none` models a failed `read(2)`, `some bytes` a
delivered datagram (the kernel truncates the datagram to the 1024-byte
buffer, hence `take 1024`).  The bytes are decoded as UTF-8 and
trimmed.  Note the source unwraps the `read` result, so a failed read
is a panic, not an `Err`. -/
def ipcWait (acceptOk : Bool) (readRes : Option (List Nat)) : WaitOutcome :=
  if acceptOk = false then .errRuntime "unable to accept incoming socket"
  else
    match readRes with
    | none => .panic
    | some bytes =>
      match utf8Decode (bytes.take 1024) with
      | some s => .ok (trimStr s)
      | none => .errRuntime "error while converting byte to string \x7b\x7d"

/-- Model of `IpcParent::close`: `close(2)` the listening fd, then unlink the
socket file at the bound path. -/
def ipcParentClose (p : IpcParent) (w : SockWorld) : Except PError SockWorld :=
  if p.fd ∈ w.openFds then
    if p.sock_path ∈ w.files then
      .ok ⟨w.files.filter (fun q => q != p.sock_path),
        w.openFds.filter (fun q => q != p.fd), w.nextFd⟩
    else .error ⟨"error removing socket", .Runtime⟩
  else .error ⟨"error closing socket", .Runtime⟩

/-- Model of `IpcChild::notify(msg)`: the datagram put on the wire is the UTF-8
byte encoding of `msg`, written in one `write(2)`. -/
def ipcNotify (msg : List Char) : List Nat := utf8Encode msg

/-! ## Configuration document model (`oci::spec`, subset used by `create`) -/

/-- The `process.user` entry. -/
structure UserCfg where
  uid : Nat
  gid : Nat
deriving DecidableEq

/-- The `process` entry. -/
structure ProcessCfg where
  terminal : Option Bool
  args : Option (List String)
  env : Option (List String)
  cwd : String
  user : Option UserCfg
deriving DecidableEq

/-- A `mounts` entry (contents unused by the embedded control flow). -/
structure MountEntry where
  destination : String
  source : String
  fstype : String
  options : Option (List String)
deriving DecidableEq

/-- A `linux.devices` entry (contents unused by the embedded control flow). -/
structure DeviceCfg where
  path : String
  devType : String
  major : Nat
  minor : Nat
deriving DecidableEq

/-- The `linux` entry. -/
structure LinuxCfg where
  devices : Option (List DeviceCfg)
deriving DecidableEq

/-- A hook descriptor. -/
structure HookCfg where
  path : String
  args : Option (List String)
  env : Option (List String)
deriving DecidableEq

/-- The `hooks` entry. -/
structure HooksCfg where
  prestart : Option (List HookCfg)
  create_runtime : Option (List HookCfg)
deriving DecidableEq

/-- The `root` entry. -/
structure RootCfg where
  path : String
deriving DecidableEq

/-- The parsed `config.json` (fields used by `create`). -/
structure SpecCfg where
  root : RootCfg
  hostname : Option String
  mounts : Option (List MountEntry)
  process : Option ProcessCfg
  linux : Option LinuxCfg
  hooks : Option HooksCfg
deriving DecidableEq

/-- Computation of `has_terminal` (`main.rs` lines 27–35). -/
def hasTerminal (spec : SpecCfg) : Bool :=
  match spec.process with
  | some p =>
    match p.terminal with
    | some t => t
    | none => false
  | none => false

/-! ## Container state document

Modelled from the spec: `core::state::State` (`src/core/state.rs` is
not among the sources; only its callers in `main.rs` are).  §3 gives
the fields, §4.2 gives `new(id, pid, bundle) → State` with
`status = Creating` and `ociVersion = "1.0.2-dev"`, `save`/`load` as
JSON (de)serialization with `load(save(s)) = s` (§8). -/

/-- The `status` of a container. -/
inductive Status
  | Creating
  | Created
  | Running
  | Stopped
deriving DecidableEq

/-- Modelled from the spec: the persisted container state document
(`core::state::State`, §3/§4.2). -/
structure PState where
  ociVersion : String
  id : String
  status : Status
  pid : Nat
  bundle : String
deriving DecidableEq

/-- Modelled from the spec: `State::new(id, pid, bundle)` (§4.2). -/
def PState.new (id : String) (pid : Nat) (bundle : String) : PState :=
  ⟨"1.0.2-dev", id, .Creating, pid, bundle⟩

/-! ## The child closure (`main.rs` lines 62–191)

The closure handed to `clone_child`.  External effects appear as a
`ChildEnv`: one boolean per fallible external step (the outcome the
kernel/library hands back) plus the environment variables the process
inherited.  The observable behaviour is the result (exit / exec /
panic), the trace of events, and the final process environment. -/

/-- Outcomes of the fallible external steps the child performs, plus
the inherited process environment. -/
structure ChildEnv where
  startBindOk : Bool
  initConnectOk : Bool
  ptyOk : Bool
  mountRootfsOk : Bool
  mountDevicesOk : Bool
  createDevicesOk : Bool
  pivotOk : Bool
  setHostnameOk : Bool
  execOk : Bool
  inheritedEnv : List (String × String)
deriving DecidableEq

/-- Events observable from the child closure, in program order. -/
inductive CEvent
  | bindStart
  | connectInit
  | notifyInit (msg : String)
  | closeInit
  | setHostname (h : String)
  | clearEnv
  | setVar (key value : String)
  | waitStart
  | closeStart
  | setUid (u : Nat)
  | setGid (g : Nat)
  | chdirTo (p : String)
deriving DecidableEq

/-- How the child closure ends. -/
inductive ChildResult
  | exited (code : Nat)
  | execed (cmd : String)
  | panic
deriving DecidableEq

/-- Model of `str::split_once` at the first `=`, on the character list of an env entry. -/
def splitOnceList : List Char → Option (List Char × List Char)
  | [] => none
  | c :: cs =>
    if c = '=' then some ([], cs)
    else
      match splitOnceList cs with
      | some (k, v) => some (c :: k, v)
      | none => none

/-- Model of `str::split_once` at the first `=`, on an env entry `KEY=VALUE`. -/
def splitOnceEq (s : String) : Option (String × String) :=
  (splitOnceList s.data).map (fun kv => (⟨kv.1⟩, ⟨kv.2⟩))

/-- Model of `std::env::set_var`: overwrite the binding if the key exists, else
append it. -/
def setEnvVar (e : List (String × String)) (k v : String) :
    List (String × String) :=
  if e.any (fun p => p.1 == k) then
    e.map (fun p => if p.1 == k then (k, v) else p)
  else e ++ [(k, v)]

/-- The `set_var` loop of `main.rs` lines 164–168: each entry is split
at its first `=`; entries without `=` are skipped. -/
def applyEnvList (e : List (String × String)) (envs : List String) :
    List (String × String) :=
  envs.foldl
    (fun acc entry =>
      match splitOnceEq entry with
      | some (k, v) => setEnvVar acc k v
      | none => acc) e

/-- The child's error messages (the `{}` suffix rendering the
underlying cause is abstracted away; no claim inspects it). -/
def terminalErrMsg : String := "error setting up terminal "

/-- See `terminalErrMsg`. -/
def mountRootfsErrMsg : String := "error mounting rootfs "

/-- See `terminalErrMsg`. -/
def mountDevicesErrMsg : String := "error mounting devices "

/-- See `terminalErrMsg`. -/
def createDevicesErrMsg : String := "error creating devices "

/-- See `terminalErrMsg`. -/
def pivotErrMsg : String := "error pivot_root "

/-- Events of the `sethostname` step (`main.rs` lines 139–141). -/
def hostnameEvents (spec : SpecCfg) : List CEvent :=
  match spec.hostname with
  | some h => [.setHostname h]
  | none => []

/-- Events of the environment sanitation block (`main.rs` lines
159–169): present only when `process.env` is `Some`. -/
def envSanEvents (p : ProcessCfg) : List CEvent :=
  match p.env with
  | some envs =>
    CEvent.clearEnv :: envs.filterMap (fun e =>
      (splitOnceEq e).map (fun kv => CEvent.setVar kv.1 kv.2))
  | none => []

/-- The process environment after the child's (conditional)
sanitation: rebuilt from `process.env` when present, untouched
otherwise. -/
def childFinalEnv (p : ProcessCfg) (cenv : ChildEnv) : List (String × String) :=
  match p.env with
  | some envs => applyEnvList [] envs
  | none => cenv.inheritedEnv

/-- Events of the `setuid`/`setgid` step (`main.rs` lines 174–177). -/
def userEvents (p : ProcessCfg) : List CEvent :=
  match p.user with
  | some u => [.setUid u.uid, .setGid u.gid]
  | none => []

/-- The child closure of `create` (`main.rs` lines 62–191).  Returns
(result, event trace, final process environment). -/
def childRun (spec : SpecCfg) (cenv : ChildEnv) :
    ChildResult × List CEvent × List (String × String) :=
  -- `IpcParent::new(run.sock).unwrap()` (the start-lock listener)
  if cenv.startBindOk = false then (.panic, [], cenv.inheritedEnv)
  else
  -- `IpcChild::new(init_lock_path).unwrap()`
  if cenv.initConnectOk = false then (.panic, [.bindStart], cenv.inheritedEnv)
  else
  -- terminal setup (`Pty::new`, `connect`, `send_pty`): on error the
  -- child notifies the init-lock and exits with code 1
  if hasTerminal spec && !cenv.ptyOk then
    (.exited 1, [.bindStart, .connectInit, .notifyInit terminalErrMsg],
      cenv.inheritedEnv)
  else
  -- first `mount_rootfs`
  if cenv.mountRootfsOk = false then
    (.exited 1, [.bindStart, .connectInit, .notifyInit mountRootfsErrMsg],
      cenv.inheritedEnv)
  else
  -- `mount_devices` runs only when `spec.mounts` is present
  if spec.mounts.isSome && !cenv.mountDevicesOk then
    (.exited 1, [.bindStart, .connectInit, .notifyInit mountDevicesErrMsg],
      cenv.inheritedEnv)
  else
  -- `create_devices` runs only when `spec.linux.devices` is present
  if (match spec.linux with
      | some l => l.devices.isSome
      | none => false) && !cenv.createDevicesOk then
    (.exited 1, [.bindStart, .connectInit, .notifyInit createDevicesErrMsg],
      cenv.inheritedEnv)
  else
  -- second `mount_rootfs` (the pivot step)
  if cenv.pivotOk = false then
    (.exited 1, [.bindStart, .connectInit, .notifyInit pivotErrMsg],
      cenv.inheritedEnv)
  else
  -- `init_lock_child.notify("0")`, `init_lock_child.close()`, then
  -- `sethostname(hostname).unwrap()` when a hostname is configured
  if (match spec.hostname with
      | some _ => true
      | none => false) && !cenv.setHostnameOk then
    (.panic, [.bindStart, .connectInit, .notifyInit "0", .closeInit],
      cenv.inheritedEnv)
  else
  match spec.process with
  | none =>
    (.exited 0,
      [.bindStart, .connectInit, .notifyInit "0", .closeInit] ++
        hostnameEvents spec,
      cenv.inheritedEnv)
  | some p =>
    match p.args with
    | none =>
      -- `process.args.as_ref().unwrap()` on `None`
      (.panic,
        [.bindStart, .connectInit, .notifyInit "0", .closeInit] ++
          hostnameEvents spec,
        cenv.inheritedEnv)
    | some argv =>
      match argv with
      | [] =>
        -- indexing `[0]` into an empty args vector
        (.panic,
          [.bindStart, .connectInit, .notifyInit "0", .closeInit] ++
            hostnameEvents spec,
          cenv.inheritedEnv)
      | cmd :: _ =>
        -- `CString::new(cmd.as_bytes()).unwrap()`
        if cmd.data.contains (Char.ofNat 0) then
          (.panic,
            [.bindStart, .connectInit, .notifyInit "0", .closeInit] ++
              hostnameEvents spec,
            cenv.inheritedEnv)
        else
        -- environment sanitation (only when `process.env` is present),
        -- `start_lock.wait().unwrap_or(...)`, `start_lock.close()`,
        -- `setuid`/`setgid`, `chdir`, `execvp`
        if cenv.execOk then
          (.execed cmd,
            [.bindStart, .connectInit, .notifyInit "0", .closeInit] ++
              hostnameEvents spec ++ envSanEvents p ++
              [.waitStart, .closeStart] ++ userEvents p ++ [.chdirTo p.cwd],
            childFinalEnv p cenv)
        else
          (.exited 1,
            [.bindStart, .connectInit, .notifyInit "0", .closeInit] ++
              hostnameEvents spec ++ envSanEvents p ++
              [.waitStart, .closeStart] ++ userEvents p ++ [.chdirTo p.cwd],
            childFinalEnv p cenv)

/-! ## The parent side of `create` (`main.rs` lines 13–243)

The orchestrator, with the child abstracted behind the value the
init-lock `wait` returns (`initMsg`) and the pid `clone_child`
returns.  `clone_child` itself lives in `core/fork.rs`, which is not
among the sources; modelled from the spec (§4.5): on success it
returns the cloned child's OS pid (a positive number).  `State::save`
/ `State::try_from` (also not among the sources) are modelled from
§4.2 as persisting/reloading the document, with `load(save(s)) = s`
(§8); their failure outcomes are `CreateEnv` flags, as `main.rs`
unwraps each of them. -/

/-- Decimal rendering of a pid, as produced by `format!("{}", pid)`. -/
def pidDigits (pid : Nat) : List Char := (Nat.repr pid).data

/-- Contents of the PID file after `pid_file.write_all` (`main.rs`
line 211).  The file was opened with `.write(true).create(true)` and
WITHOUT `.truncate(true)` (`main.rs` lines 37–41), so the write
overwrites the file from offset 0 and any longer pre-existing content
keeps its stale tail. -/
def pidFileWrite (pid : Nat) (old : List Char) : List Char :=
  pidDigits pid ++ old.drop (pidDigits pid).length

/-- Events observable from the parent, in program order. -/
inductive PEvent
  | logInfo (msg : String)
  | logError (msg : String)
  | execHook (h : HookCfg)
  | sendSignal (pid signo : Nat)
deriving DecidableEq

/-- How the `create` invocation ends in the parent. -/
inductive CreateResult
  | ok
  | exited (code : Nat)
  | panic
deriving DecidableEq

/-- Observable outcome of a `create` run: final result, parent event
trace, final kernel socket state, the persisted state document
(`state.json` contents), and the PID file contents (`none` while the
run never opened the file; `some cs` once it exists with content
`cs`). -/
structure CreateOut where
  result : CreateResult
  events : List PEvent
  world : SockWorld
  stateDoc : Option PState
  pidFile : Option (List Char)
deriving DecidableEq

/-- Outcomes of the parent's fallible external steps.  `pidFileInit`
is the PID file's content right after the non-truncating open: empty
for a freshly created file, the stale previous content otherwise. -/
structure CreateEnv where
  specParseOk : Bool
  pidFileOpenOk : Bool
  pidFileInit : List Char
  stateSave1Ok : Bool
  ptySocketOk : Bool
  cloneOk : Bool
  childPid : Nat
  initMsg : WaitOutcome
  stateLoadOk : Bool
  stateSave2Ok : Bool
  hookOk : Bool
deriving DecidableEq

/-- Path `<root>/<id>/init.sock`, as formatted in `main.rs` lines 44 and 59. -/
def initSockPath (root id : String) : String :=
  root ++ "/" ++ id ++ "/init.sock"

/-- Events of a successfully executed hook list: each hook runs, then
the parent sends signal 9 (SIGKILL) to the child (`main.rs` lines
220–234). -/
def hookEvents (hs : List HookCfg) (pid : Nat) : List PEvent :=
  hs.flatMap (fun h => [.execHook h, .sendSignal pid 9])

/-- The hooks `create` executes, in order: all `prestart` hooks, then
all `createRuntime` hooks. -/
def allHooks (spec : SpecCfg) : List HookCfg :=
  match spec.hooks with
  | none => []
  | some hks => (hks.prestart.getD []) ++ (hks.create_runtime.getD [])

/-- The parent side of `create` (`main.rs` lines 13–243), as a
function of the outcomes of its external steps. -/
def createRun (root id bundle : String) (spec : SpecCfg) (env : CreateEnv)
    (w : SockWorld) : CreateOut :=
  -- `Spec::try_from(bundle/config.json)`: on error, log and `exit(1)`
  if env.specParseOk = false then
    ⟨.exited 1, [.logError "spec parse error"], w, none, none⟩
  else
  -- `OpenOptions::open(pid_file).unwrap()`
  if env.pidFileOpenOk = false then ⟨.panic, [], w, none, none⟩
  else
  -- `State::new(id, 0, bundle)` then `state.save(container_path).unwrap()`
  if env.stateSave1Ok = false then ⟨.panic, [], w, none, some env.pidFileInit⟩
  else
  -- `PtySocket::new(console_socket)`: on error `exit_msg(1, ...)`
  if hasTerminal spec && !env.ptySocketOk then
    ⟨.exited 1, [], w, some (PState.new id 0 bundle), some env.pidFileInit⟩
  else
  -- `IpcParent::new(init_lock_path).unwrap()`
  match ipcParentNew (initSockPath root id) w with
  | .error _ =>
    ⟨.panic, [], w, some (PState.new id 0 bundle), some env.pidFileInit⟩
  | .ok (initLock, w1) =>
    -- `clone_child(...).expect("error forking child")`
    if env.cloneOk = false then
      ⟨.panic, [], w1, some (PState.new id 0 bundle), some env.pidFileInit⟩
    else
    -- `init_lock.wait()`
    match env.initMsg with
    | .panic =>
      ⟨.panic, [], w1, some (PState.new id 0 bundle), some env.pidFileInit⟩
    | .errRuntime m =>
      ⟨.exited 2, [.logError ("error with init_lock " ++ m)], w1,
        some (PState.new id 0 bundle), some env.pidFileInit⟩
    | .ok s =>
      if s ≠ ['0'] then
        ⟨.exited 2, [.logError ("child process error " ++ String.mk s)], w1,
          some (PState.new id 0 bundle), some env.pidFileInit⟩
      else
      -- `init_lock.close().unwrap()`
      match ipcParentClose initLock w1 with
      | .error _ =>
        ⟨.panic, [.logInfo "child process prepared successfully"], w1,
          some (PState.new id 0 bundle), some env.pidFileInit⟩
      | .ok w2 =>
        -- `pid_file.write_all(format!("{}", pid))` (no truncate), then
        -- `State::try_from(container_path).unwrap()`
        if env.stateLoadOk = false then
          ⟨.panic, [.logInfo "child process prepared successfully"], w2,
            some (PState.new id 0 bundle),
            some (pidFileWrite env.childPid env.pidFileInit)⟩
        else
        -- `state.status = Created; state.pid = pid; state.save(...).unwrap()`
        if env.stateSave2Ok = false then
          ⟨.panic, [.logInfo "child process prepared successfully"], w2,
            some (PState.new id 0 bundle),
            some (pidFileWrite env.childPid env.pidFileInit)⟩
        else
        -- hooks: each `exec_hook(..).expect(..)` then `signal(pid, 9).unwrap()`
        if env.hookOk = false then
          match allHooks spec with
          | [] =>
            ⟨.ok, [.logInfo "child process prepared successfully"], w2,
              some { PState.new id 0 bundle with
                status := .Created, pid := env.childPid },
              some (pidFileWrite env.childPid env.pidFileInit)⟩
          | h :: _ =>
            ⟨.panic, [.logInfo "child process prepared successfully",
                .execHook h], w2,
              some { PState.new id 0 bundle with
                status := .Created, pid := env.childPid },
              some (pidFileWrite env.childPid env.pidFileInit)⟩
        else
        ⟨.ok, .logInfo "child process prepared successfully" ::
            hookEvents (allHooks spec) env.childPid, w2,
          some { PState.new id 0 bundle with
            status := .Created, pid := env.childPid },
          some (pidFileWrite env.childPid env.pidFileInit)⟩

/-! ## Helper lemmas about the IPC layer -/

theorem ipcParentNew_ok {path : String} {w : SockWorld} {p : IpcParent}
    {w' : SockWorld} (h : ipcParentNew path w = .ok (p, w')) :
    p = ⟨w.nextFd, path⟩ ∧
    w' = ⟨path :: w.files, w.nextFd :: w.openFds, w.nextFd + 1⟩ ∧
    path ∉ w.files := by
  unfold ipcParentNew at h
  split at h
  · exact absurd h (by simp)
  · next hmem =>
    simp only [Except.ok.injEq, Prod.mk.injEq] at h
    exact ⟨h.1.symm, h.2.symm, hmem⟩

theorem ipcParentClose_ok {p : IpcParent} {w w' : SockWorld}
    (h : ipcParentClose p w = .ok w') :
    w' = ⟨w.files.filter (fun q => q != p.sock_path),
      w.openFds.filter (fun q => q != p.fd), w.nextFd⟩ := by
  unfold ipcParentClose at h
  split at h
  · split at h
    · simp only [Except.ok.injEq] at h
      exact h.symm
    · exact absurd h (by simp)
  · exact absurd h (by simp)

/-- After a successful `close`, the socket path is unlinked and the fd
is no longer open. -/
theorem ipcParentClose_removes {p : IpcParent} {w w' : SockWorld}
    (h : ipcParentClose p w = .ok w') :
    p.sock_path ∉ w'.files ∧ p.fd ∉ w'.openFds := by
  rcases ipcParentClose_ok h with rfl
  constructor
  · intro hmem
    rcases List.mem_filter.mp hmem with ⟨-, hne⟩
    simp at hne
  · intro hmem
    rcases List.mem_filter.mp hmem with ⟨-, hne⟩
    simp at hne

/-! ## Claim C10 -/

/-- C10: if the accepted init-lock connection yields zero bytes (the
connector closed without writing, or sent an empty datagram),
`IpcParent::wait` returns `Ok("")` rather than an error. -/
theorem c10_empty_datagram_ok : ipcWait true (some []) = .ok [] := by decide

/-! ## Claim C4 (the code panics on a failed read) -/

/-- C4: contrary to the claim, `IpcParent::wait` does NOT return an
`Err` on every underlying syscall error: a failed `read(2)` on the
accepted connection hits the `.unwrap()` in `wait` and panics.  A
failed `accept(2)` and a non-UTF-8 payload do produce `Runtime`
errors, as claimed. -/
theorem c4_wait_read_error_panics :
    ipcWait true none = .panic ∧
    ipcWait false none = .errRuntime "unable to accept incoming socket" ∧
    ipcWait true (some [255]) =
      .errRuntime "error while converting byte to string \x7b\x7d" := by
  decide

/-! ## Claim C7 -/

/-- C7: once an `IpcParent` listener is bound to a path, constructing
a second `IpcParent` on the same path fails at bind with a `Runtime`
error, and the first listener is untouched: its path stays bound and
its fd stays open. -/
theorem c7_second_bind_fails (path : String) (w w' : SockWorld) (p : IpcParent)
    (h : ipcParentNew path w = .ok (p, w')) :
    ipcParentNew path w' = .error ⟨"unable to bind IPC socket", .Runtime⟩ ∧
    p.sock_path = path ∧ path ∈ w'.files ∧ p.fd ∈ w'.openFds := by
  rcases ipcParentNew_ok h with ⟨rfl, rfl, -⟩
  refine ⟨?_, rfl, by simp, by simp⟩
  unfold ipcParentNew
  rw [if_pos (by simp)]

/-- Witness for C7 at a concrete path and world. -/
theorem c7_witness :
    ipcParentNew "/tmp/pura/c1/init.sock"
        ⟨["/tmp/pura/c1/init.sock"], [3], 4⟩ =
      .error ⟨"unable to bind IPC socket", .Runtime⟩ ∧
    (⟨3, "/tmp/pura/c1/init.sock"⟩ : IpcParent).sock_path =
      "/tmp/pura/c1/init.sock" ∧
    "/tmp/pura/c1/init.sock" ∈
      (⟨["/tmp/pura/c1/init.sock"], [3], 4⟩ : SockWorld).files ∧
    (⟨3, "/tmp/pura/c1/init.sock"⟩ : IpcParent).fd ∈
      (⟨["/tmp/pura/c1/init.sock"], [3], 4⟩ : SockWorld).openFds :=
  c7_second_bind_fails "/tmp/pura/c1/init.sock" ⟨[], [], 3⟩
    ⟨["/tmp/pura/c1/init.sock"], [3], 4⟩ ⟨3, "/tmp/pura/c1/init.sock"⟩
    (by rfl)

/-! ## Claim C1 -/

/-- C1 (amended): for a datagram sent by `notify(m)` and consumed by
`wait`, the receiver truncates to the first 1024 bytes and decodes:
if `m` encodes in at most 1024 bytes, `wait` returns `Ok` of `m`
trimmed; in general `wait` returns `Ok` of the trimmed decode of the
first 1024 bytes when they are valid UTF-8, and a `Runtime` error
when truncation leaves them invalid. -/
theorem c1_ipc_roundtrip (m : List Char) :
    ((utf8Encode m).length ≤ 1024 →
      ipcWait true (some (ipcNotify m)) = .ok (trimStr m)) ∧
    (∀ s, utf8Decode ((utf8Encode m).take 1024) = some s →
      ipcWait true (some (ipcNotify m)) = .ok (trimStr s)) ∧
    (utf8Decode ((utf8Encode m).take 1024) = none →
      ipcWait true (some (ipcNotify m)) =
        .errRuntime "error while converting byte to string \x7b\x7d") := by
  have hgen : ∀ s, utf8Decode ((utf8Encode m).take 1024) = some s →
      ipcWait true (some (ipcNotify m)) = .ok (trimStr s) := by
    intro s hs
    unfold ipcWait ipcNotify
    rw [if_neg (by simp)]
    show (match utf8Decode ((utf8Encode m).take 1024) with
      | some s => WaitOutcome.ok (trimStr s)
      | none => WaitOutcome.errRuntime
          "error while converting byte to string \x7b\x7d") = _
    rw [hs]
  refine ⟨?_, hgen, ?_⟩
  · intro hlen
    apply hgen
    rw [List.take_of_length_le hlen, utf8Decode_utf8Encode]
  · intro hnone
    unfold ipcWait ipcNotify
    rw [if_neg (by simp)]
    show (match utf8Decode ((utf8Encode m).take 1024) with
      | some s => WaitOutcome.ok (trimStr s)
      | none => WaitOutcome.errRuntime
          "error while converting byte to string \x7b\x7d") = _
    rw [hnone]

/-- Witness for C1 at the concrete message `" hi"` (3 bytes), which
`wait` returns with its leading whitespace trimmed. -/
theorem c1_witness :
    ipcWait true (some (ipcNotify [' ', 'h', 'i'])) = .ok ['h', 'i'] := by
  have h := (c1_ipc_roundtrip [' ', 'h', 'i']).1 (by decide)
  rw [h]
  decide

/-- The 1025-byte message refuting the unconditional truncation claim:
1023 ASCII bytes followed by a two-byte character, so the 1024-byte
receive buffer splits the final character. -/
def c1LongMsg : List Char := List.replicate 1023 'a' ++ ['é']

theorem utf8Encode_replicate_a (n : Nat) :
    utf8Encode (List.replicate n 'a') = List.replicate n 97 := by
  induction n with
  | zero => rfl
  | succ k ih =>
    rw [List.replicate_succ, List.replicate_succ]
    show utf8EncodeChar 'a' ++ utf8Encode (List.replicate k 'a') = _
    rw [ih]
    rfl

theorem utf8Decode_replicate_a_c3 (n : Nat) :
    utf8DecAux none (List.replicate n 97 ++ [195]) = none := by
  induction n with
  | zero => rfl
  | succ k ih =>
    rw [List.replicate_succ, List.cons_append]
    rw [utf8DecAux, if_pos (by omega), ih]
    rfl

set_option maxRecDepth 4000 in
/-- Counterexample for C1 as stated: for the 1025-byte message
`c1LongMsg`, `wait` does not return the trimmed first 1024 bytes — it
returns a `Runtime` error, because truncation at the 1024-byte buffer
splits the last character's two-byte encoding. -/
theorem c1_counterexample :
    1024 < (utf8Encode c1LongMsg).length ∧
    ipcWait true (some (ipcNotify c1LongMsg)) =
      .errRuntime "error while converting byte to string \x7b\x7d" := by
  have henc : utf8Encode c1LongMsg = List.replicate 1023 97 ++ [195, 169] := by
    unfold c1LongMsg
    rw [utf8Encode_append, utf8Encode_replicate_a]
    rfl
  have hlen : (utf8Encode c1LongMsg).length = 1025 := by
    rw [henc, List.length_append, List.length_replicate]
    rfl
  have htake : (utf8Encode c1LongMsg).take 1024 =
      List.replicate 1023 97 ++ [195] := by
    rw [henc, List.take_append_eq_append_take]
    rw [List.take_of_length_le (by rw [List.length_replicate]; omega),
      List.length_replicate]
    congr 1
  refine ⟨by omega, ?_⟩
  have hdec : utf8Decode ((utf8Encode c1LongMsg).take 1024) = none := by
    rw [htake]
    exact utf8Decode_replicate_a_c3 1023
  unfold ipcWait ipcNotify
  rw [if_neg (by simp)]
  generalize hX : utf8Encode c1LongMsg = X
  rw [hX] at hdec
  show (match utf8Decode (X.take 1024) with
    | some s => WaitOutcome.ok (trimStr s)
    | none => WaitOutcome.errRuntime "error while converting byte to string \x7b\x7d") = _
  rw [hdec]

/-! ## Concrete fixtures used by the witnesses below -/

/-- A minimal configuration: only a rootfs path. -/
def specNil : SpecCfg := ⟨⟨"/rootfs"⟩, none, none, none, none, none⟩

/-- A parent environment in which every external step succeeds, the
clone returns pid 7, and the child reports success. -/
def envAllOk : CreateEnv :=
  ⟨true, true, [], true, true, true, 7, .ok ['0'], true, true, true⟩

/-- An initial kernel state with no socket files. -/
def emptyWorld : SockWorld := ⟨[], [], 3⟩

/-! ## Computation lemmas for `createRun` -/

/-- When every parent-side step succeeds and the child reports `"0"`,
`createRun` takes the full success path; this records its exact
output. -/
theorem createRun_success (root id bundle : String) (spec : SpecCfg)
    (env : CreateEnv) (w : SockWorld)
    (hparse : env.specParseOk = true) (hpf : env.pidFileOpenOk = true)
    (hsave : env.stateSave1Ok = true)
    (hpty : hasTerminal spec = false ∨ env.ptySocketOk = true)
    (hbind : initSockPath root id ∉ w.files) (hclone : env.cloneOk = true)
    (hmsg : env.initMsg = .ok ['0'])
    (hload : env.stateLoadOk = true) (hsave2 : env.stateSave2Ok = true)
    (hhook : env.hookOk = true) :
    createRun root id bundle spec env w =
      ⟨.ok, .logInfo "child process prepared successfully" ::
          hookEvents (allHooks spec) env.childPid,
        ⟨(initSockPath root id :: w.files).filter
            (fun q => q != initSockPath root id),
          (w.nextFd :: w.openFds).filter (fun q => q != w.nextFd),
          w.nextFd + 1⟩,
        some { PState.new id 0 bundle with
          status := .Created, pid := env.childPid },
        some (pidFileWrite env.childPid env.pidFileInit)⟩ := by
  have hnew : ipcParentNew (initSockPath root id) w =
      .ok (⟨w.nextFd, initSockPath root id⟩,
        ⟨initSockPath root id :: w.files, w.nextFd :: w.openFds,
          w.nextFd + 1⟩) := by
    unfold ipcParentNew
    rw [if_neg hbind]
  have hclose : ipcParentClose ⟨w.nextFd, initSockPath root id⟩
      ⟨initSockPath root id :: w.files, w.nextFd :: w.openFds, w.nextFd + 1⟩ =
      .ok ⟨(initSockPath root id :: w.files).filter
          (fun q => q != initSockPath root id),
        (w.nextFd :: w.openFds).filter (fun q => q != w.nextFd),
        w.nextFd + 1⟩ := by
    unfold ipcParentClose
    rw [if_pos (by simp), if_pos (by simp)]
  unfold createRun
  rw [hparse, hpf, hsave, hclone, hmsg, hload, hsave2, hhook, hnew]
  rw [if_neg (by simp), if_neg (by simp), if_neg (by simp)]
  have hterm : (hasTerminal spec && !env.ptySocketOk) = false := by
    rcases hpty with ht | hp
    · rw [ht]; rfl
    · rw [hp]; simp
  rw [hterm]
  rw [if_neg (by simp)]
  dsimp only
  rw [if_neg (by simp), if_neg (by simp), hclose]
  dsimp only
  rw [if_neg (by simp), if_neg (by simp), if_neg (by simp)]

/-- When the parent-side steps up to the rendezvous succeed but the
child reports a string other than `"0"`, `create` logs the string and
exits with code 2; this records the exact output. -/
theorem createRun_rejected (root id bundle : String) (spec : SpecCfg)
    (env : CreateEnv) (w : SockWorld) (s : List Char)
    (hparse : env.specParseOk = true) (hpf : env.pidFileOpenOk = true)
    (hsave : env.stateSave1Ok = true)
    (hpty : hasTerminal spec = false ∨ env.ptySocketOk = true)
    (hbind : initSockPath root id ∉ w.files) (hclone : env.cloneOk = true)
    (hmsg : env.initMsg = .ok s) (hne : s ≠ ['0']) :
    createRun root id bundle spec env w =
      ⟨.exited 2, [.logError ("child process error " ++ String.mk s)],
        ⟨initSockPath root id :: w.files, w.nextFd :: w.openFds, w.nextFd + 1⟩,
        some (PState.new id 0 bundle), some env.pidFileInit⟩ := by
  have hnew : ipcParentNew (initSockPath root id) w =
      .ok (⟨w.nextFd, initSockPath root id⟩,
        ⟨initSockPath root id :: w.files, w.nextFd :: w.openFds,
          w.nextFd + 1⟩) := by
    unfold ipcParentNew
    rw [if_neg hbind]
  unfold createRun
  rw [hparse, hpf, hsave, hclone, hmsg, hnew]
  rw [if_neg (by simp), if_neg (by simp), if_neg (by simp)]
  have hterm : (hasTerminal spec && !env.ptySocketOk) = false := by
    rcases hpty with ht | hp
    · rw [ht]; rfl
    · rw [hp]; simp
  rw [hterm]
  rw [if_neg (by simp)]
  dsimp only
  rw [if_pos hne]
  rw [if_neg (by simp)]

/-- If the init-lock was bound on `path` and then closed, `path` is no
longer a socket file. -/
theorem init_sock_removed {path : String} {w : SockWorld} {il : IpcParent}
    {w1 w2 : SockWorld} (hnew : ipcParentNew path w = .ok (il, w1))
    (hclose : ipcParentClose il w1 = .ok w2) : path ∉ w2.files := by
  rcases ipcParentNew_ok hnew with ⟨rfl, rfl, -⟩
  exact (ipcParentClose_removes hclose).1

/-- Inversion of the success path: if the embedded `create` returned
normally, the run went through the full `"0"` branch, so the state
document holds `Created` with the child's pid, the PID file holds the
non-truncating write of the pid's digits, and the init-lock socket
file has been unlinked. -/
theorem createRun_ok_inv (root id bundle : String) (spec : SpecCfg)
    (env : CreateEnv) (w : SockWorld)
    (hok : (createRun root id bundle spec env w).result = .ok) :
    (createRun root id bundle spec env w).stateDoc =
      some { PState.new id 0 bundle with
        status := .Created, pid := env.childPid } ∧
    (createRun root id bundle spec env w).pidFile =
      some (pidFileWrite env.childPid env.pidFileInit) ∧
    initSockPath root id ∉ (createRun root id bundle spec env w).world.files := by
  rcases hE : createRun root id bundle spec env w with ⟨res, evs, w', doc, pf⟩
  rw [hE] at hok
  dsimp only at hok ⊢
  unfold createRun at hE
  cases hsp : env.specParseOk
  · rw [hsp, if_pos rfl] at hE
    exact CreateResult.noConfusion ((congrArg CreateOut.result hE).trans hok)
  · rw [hsp, if_neg (by simp)] at hE
    cases hpfo : env.pidFileOpenOk
    · rw [hpfo, if_pos rfl] at hE
      exact CreateResult.noConfusion ((congrArg CreateOut.result hE).trans hok)
    · rw [hpfo, if_neg (by simp)] at hE
      cases hsv : env.stateSave1Ok
      · rw [hsv, if_pos rfl] at hE
        exact CreateResult.noConfusion ((congrArg CreateOut.result hE).trans hok)
      · rw [hsv, if_neg (by simp)] at hE
        cases hterm : (hasTerminal spec && !env.ptySocketOk)
        case true =>
          rw [hterm, if_pos rfl] at hE
          exact CreateResult.noConfusion ((congrArg CreateOut.result hE).trans hok)
        case false =>
          rw [hterm, if_neg (by simp)] at hE
          cases hnew : ipcParentNew (initSockPath root id) w with
          | error e =>
            rw [hnew] at hE
            dsimp only at hE
            exact CreateResult.noConfusion ((congrArg CreateOut.result hE).trans hok)
          | ok pr =>
            obtain ⟨il, w1⟩ := pr
            rw [hnew] at hE
            dsimp only at hE
            cases hcl : env.cloneOk
            · rw [hcl, if_pos rfl] at hE
              exact CreateResult.noConfusion ((congrArg CreateOut.result hE).trans hok)
            · rw [hcl, if_neg (by simp)] at hE
              cases hmsg : env.initMsg with
              | panic =>
                rw [hmsg] at hE
                dsimp only at hE
                exact CreateResult.noConfusion ((congrArg CreateOut.result hE).trans hok)
              | errRuntime m =>
                rw [hmsg] at hE
                dsimp only at hE
                exact CreateResult.noConfusion ((congrArg CreateOut.result hE).trans hok)
              | ok s =>
                rw [hmsg] at hE
                dsimp only at hE
                by_cases hs : s ≠ ['0']
                · rw [if_pos hs] at hE
                  exact CreateResult.noConfusion ((congrArg CreateOut.result hE).trans hok)
                · rw [if_neg hs] at hE
                  cases hclo : ipcParentClose il w1 with
                  | error e2 =>
                    rw [hclo] at hE
                    dsimp only at hE
                    exact CreateResult.noConfusion ((congrArg CreateOut.result hE).trans hok)
                  | ok w2 =>
                    rw [hclo] at hE
                    dsimp only at hE
                    cases hld : env.stateLoadOk
                    · rw [hld, if_pos rfl] at hE
                      exact CreateResult.noConfusion ((congrArg CreateOut.result hE).trans hok)
                    · rw [hld, if_neg (by simp)] at hE
                      cases hsv2 : env.stateSave2Ok
                      · rw [hsv2, if_pos rfl] at hE
                        exact CreateResult.noConfusion ((congrArg CreateOut.result hE).trans hok)
                      · rw [hsv2, if_neg (by simp)] at hE
                        cases hhk : env.hookOk
                        · rw [hhk, if_pos rfl] at hE
                          cases hAll : allHooks spec with
                          | nil =>
                            rw [hAll] at hE
                            dsimp only at hE
                            injection hE with h1 h2 h3 h4 h5
                            subst h1
                            subst h2
                            subst h3
                            subst h4
                            subst h5
                            exact ⟨rfl, rfl, init_sock_removed hnew hclo⟩
                          | cons h0 hs0 =>
                            rw [hAll] at hE
                            dsimp only at hE
                            exact CreateResult.noConfusion
                              ((congrArg CreateOut.result hE).trans hok)
                        · rw [hhk, if_neg (by simp)] at hE
                          injection hE with h1 h2 h3 h4 h5
                          subst h1
                          subst h2
                          subst h3
                          subst h4
                          subst h5
                          exact ⟨rfl, rfl, init_sock_removed hnew hclo⟩

/-! ## Claim C3 -/

/-- An environment whose PID file pre-exists with the stale content
`"99999"` of an earlier container. -/
def envStalePidFile : CreateEnv :=
  ⟨true, true, ['9', '9', '9', '9', '9'], true, true, true, 7, .ok ['0'],
    true, true, true⟩

/-- Counterexample for C3 as stated: `main.rs` opens the PID file with
`.write(true).create(true)` and no truncate, so a successful run over
a pre-existing PID file `"99999"` with child pid 7 leaves `"79999"` —
the file does not contain the child's pid. -/
theorem c3_counterexample :
    (createRun "/tmp/pura" "c1" "/b" specNil envStalePidFile
      emptyWorld).result = .ok ∧
    (createRun "/tmp/pura" "c1" "/b" specNil envStalePidFile
      emptyWorld).pidFile = some ['7', '9', '9', '9', '9'] ∧
    ['7', '9', '9', '9', '9'] ≠ pidDigits envStalePidFile.childPid := by
  decide

/-- C3 (amended): every successful `create` run persists a state
document with `status = Created` and `pid` equal to the cloned child's
pid (positive because `clone` returns the child's OS pid), and writes
that number's decimal digits at offset 0 of the PID file.  Because the
file is opened without truncation, the file contains exactly that
number only when its pre-existing content is no longer than the digits
written (in particular, always when the file is freshly created);
longer stale content keeps its tail. -/
theorem c3_created_state (root id bundle : String) (spec : SpecCfg)
    (env : CreateEnv) (w : SockWorld) (hpid : 0 < env.childPid)
    (hok : (createRun root id bundle spec env w).result = .ok) :
    ∃ st, (createRun root id bundle spec env w).stateDoc = some st ∧
      st.status = .Created ∧ st.pid = env.childPid ∧ 0 < st.pid ∧
      (createRun root id bundle spec env w).pidFile =
        some (pidFileWrite env.childPid env.pidFileInit) ∧
      (env.pidFileInit.length ≤ (pidDigits env.childPid).length →
        (createRun root id bundle spec env w).pidFile =
          some (pidDigits env.childPid)) := by
  obtain ⟨hdoc, hpfile, -⟩ := createRun_ok_inv root id bundle spec env w hok
  refine ⟨_, hdoc, rfl, rfl, hpid, hpfile, fun h => ?_⟩
  rw [hpfile]
  unfold pidFileWrite
  rw [List.drop_eq_nil_of_le h, List.append_nil]

/-! ## Claim C5 -/

/-- C5: if the init-lock wait returns a string other than `"0"`, the
parent logs the received string and exits with code 2; on exactly
`"0"` it proceeds: the init-lock socket is closed and unlinked, the
PID file receives the child's pid, and the state document is updated
to `Created`. -/
theorem c5_init_lock_decision (root id bundle : String) (spec : SpecCfg)
    (env : CreateEnv) (w : SockWorld)
    (hparse : env.specParseOk = true) (hpf : env.pidFileOpenOk = true)
    (hsave : env.stateSave1Ok = true)
    (hpty : hasTerminal spec = false ∨ env.ptySocketOk = true)
    (hbind : initSockPath root id ∉ w.files) (hclone : env.cloneOk = true)
    (hload : env.stateLoadOk = true) (hsave2 : env.stateSave2Ok = true)
    (hhook : env.hookOk = true) :
    (∀ s, env.initMsg = .ok s → s ≠ ['0'] →
      (createRun root id bundle spec env w).result = .exited 2 ∧
      PEvent.logError ("child process error " ++ String.mk s) ∈
        (createRun root id bundle spec env w).events) ∧
    (env.initMsg = .ok ['0'] →
      initSockPath root id ∉ (createRun root id bundle spec env w).world.files ∧
      (createRun root id bundle spec env w).pidFile =
        some (pidFileWrite env.childPid env.pidFileInit) ∧
      ∃ st, (createRun root id bundle spec env w).stateDoc = some st ∧
        st.status = .Created ∧ st.pid = env.childPid) := by
  constructor
  · intro s hmsg hne
    rw [createRun_rejected root id bundle spec env w s hparse hpf hsave hpty
      hbind hclone hmsg hne]
    exact ⟨rfl, by simp⟩
  · intro hmsg
    rw [createRun_success root id bundle spec env w hparse hpf hsave hpty
      hbind hclone hmsg hload hsave2 hhook]
    refine ⟨?_, rfl, ⟨_, rfl, rfl, rfl⟩⟩
    intro hmem
    rcases List.mem_filter.mp hmem with ⟨-, hq⟩
    simp at hq

/-- Witness for C5: a concrete run receiving `"0"` proceeds as
claimed. -/
theorem c5_witness :
    initSockPath "/tmp/pura" "c1" ∉
      (createRun "/tmp/pura" "c1" "/b" specNil envAllOk emptyWorld).world.files ∧
    (createRun "/tmp/pura" "c1" "/b" specNil envAllOk emptyWorld).pidFile =
      some (pidFileWrite envAllOk.childPid envAllOk.pidFileInit) ∧
    ∃ st, (createRun "/tmp/pura" "c1" "/b" specNil envAllOk
        emptyWorld).stateDoc = some st ∧
      st.status = .Created ∧ st.pid = envAllOk.childPid :=
  (c5_init_lock_decision "/tmp/pura" "c1" "/b" specNil envAllOk emptyWorld
    (by decide) (by decide) (by decide) (Or.inl (by decide)) (by decide)
    (by decide) (by decide) (by decide) (by decide)).2 (by decide)

/-! ## Claim C8 -/

/-- C8: `IpcParent::close` closes the listening fd and unlinks the
socket file at the bound path; consequently, after every completed
`create`, the init-lock socket file `<root>/<id>/init.sock` no longer
exists. -/
theorem c8_close_unlinks (p : IpcParent) (wa wb : SockWorld)
    (root id bundle : String) (spec : SpecCfg) (env : CreateEnv)
    (w : SockWorld) (hclose : ipcParentClose p wa = .ok wb)
    (hok : (createRun root id bundle spec env w).result = .ok) :
    (p.fd ∉ wb.openFds ∧ p.sock_path ∉ wb.files) ∧
    initSockPath root id ∉ (createRun root id bundle spec env w).world.files := by
  exact ⟨⟨(ipcParentClose_removes hclose).2, (ipcParentClose_removes hclose).1⟩,
    (createRun_ok_inv root id bundle spec env w hok).2.2⟩

/-- The kernel state left by the concrete close in `c8_witness`. -/
def ipcWitClose : SockWorld := ⟨[], [], 4⟩

/-- Witness for C8: a concrete close plus a concrete completed run. -/
theorem c8_witness :
    ((⟨3, "/tmp/pura/c1/init.sock"⟩ : IpcParent).fd ∉
        (ipcWitClose).openFds ∧
      (⟨3, "/tmp/pura/c1/init.sock"⟩ : IpcParent).sock_path ∉
        (ipcWitClose).files) ∧
    initSockPath "/tmp/pura" "c1" ∉
      (createRun "/tmp/pura" "c1" "/b" specNil envAllOk emptyWorld).world.files :=
  c8_close_unlinks ⟨3, "/tmp/pura/c1/init.sock"⟩
    ⟨["/tmp/pura/c1/init.sock"], [3], 4⟩ ipcWitClose
    "/tmp/pura" "c1" "/b" specNil envAllOk emptyWorld (by rfl) (by decide)

/-! ## Claim C2 (the code SIGKILLs the child after each hook) -/

/-- A concrete prestart hook. -/
def hook1 : HookCfg := ⟨"/usr/bin/hook", none, none⟩

/-- A configuration with one prestart hook. -/
def specWithHook : SpecCfg :=
  ⟨⟨"/rootfs"⟩, none, none, none, none, some ⟨some [hook1], none⟩⟩

/-- C2: contrary to the claim (and the spec's stated intent), after a
successful prestart hook the parent sends signal 9 (SIGKILL) to the
child's pid — `main.rs` lines 224 and 231 — so the init process does
not remain alive at `status = Created`.  Shown on a concrete run with
one prestart hook that succeeds. -/
theorem c2_sigkill_after_hook :
    (createRun "/tmp/pura" "c1" "/b" specWithHook envAllOk emptyWorld).result
      = .ok ∧
    PEvent.sendSignal envAllOk.childPid 9 ∈
      (createRun "/tmp/pura" "c1" "/b" specWithHook envAllOk
        emptyWorld).events := by
  decide

/-! ## Claim C9 -/

/-- C9: with a `process` entry whose `args` is absent, the child
closure panics via `unwrap` on `None` — after it has already sent the
success message `"0"` over the init-lock — so the parent still
observes a successful create. -/
theorem c9_args_none_panics (spec : SpecCfg) (p : ProcessCfg)
    (cenv : ChildEnv) (root id bundle : String) (env : CreateEnv)
    (w : SockWorld)
    (hp : spec.process = some p) (hargs : p.args = none)
    (h1 : cenv.startBindOk = true) (h2 : cenv.initConnectOk = true)
    (h3 : cenv.ptyOk = true) (h4 : cenv.mountRootfsOk = true)
    (h5 : cenv.mountDevicesOk = true) (h6 : cenv.createDevicesOk = true)
    (h7 : cenv.pivotOk = true) (h8 : cenv.setHostnameOk = true)
    (hparse : env.specParseOk = true) (hpf : env.pidFileOpenOk = true)
    (hsave : env.stateSave1Ok = true)
    (hpty : hasTerminal spec = false ∨ env.ptySocketOk = true)
    (hbind : initSockPath root id ∉ w.files) (hclone : env.cloneOk = true)
    (hmsg : env.initMsg = .ok ['0'])
    (hload : env.stateLoadOk = true) (hsave2 : env.stateSave2Ok = true)
    (hhook : env.hookOk = true) :
    (childRun spec cenv).1 = .panic ∧
    CEvent.notifyInit "0" ∈ (childRun spec cenv).2.1 ∧
    (createRun root id bundle spec env w).result = .ok := by
  have hchild : childRun spec cenv =
      (.panic, [.bindStart, .connectInit, .notifyInit "0", .closeInit] ++
        hostnameEvents spec, cenv.inheritedEnv) := by
    unfold childRun
    rw [h1, h2, h3, h4, h5, h6, h7, h8, hp]
    rw [if_neg (by simp), if_neg (by simp), if_neg (by simp),
      if_neg (by simp), if_neg (by simp), if_neg (by simp),
      if_neg (by simp), if_neg (by simp)]
    dsimp only
    rw [hargs]
  rw [hchild]
  refine ⟨rfl, by simp, ?_⟩
  rw [createRun_success root id bundle spec env w hparse hpf hsave hpty
    hbind hclone hmsg hload hsave2 hhook]

/-- Fixture for C9: a process entry with `args: None`. -/
def c9Proc : ProcessCfg := ⟨some false, none, none, "/", none⟩

/-- Fixture for C9. -/
def c9Spec : SpecCfg := ⟨⟨"/rootfs"⟩, none, none, some c9Proc, none, none⟩

/-- A child environment in which every external step succeeds and no
environment variables were inherited. -/
def cenvAllOk : ChildEnv :=
  ⟨true, true, true, true, true, true, true, true, true, []⟩

/-- Witness for C9 at a concrete configuration. -/
theorem c9_witness :
    (childRun c9Spec cenvAllOk).1 = .panic ∧
    CEvent.notifyInit "0" ∈ (childRun c9Spec cenvAllOk).2.1 ∧
    (createRun "/tmp/pura" "c1" "/b" c9Spec envAllOk emptyWorld).result = .ok :=
  c9_args_none_panics c9Spec c9Proc cenvAllOk "/tmp/pura" "c1" "/b" envAllOk
    emptyWorld (by decide) (by decide) (by decide) (by decide) (by decide)
    (by decide) (by decide) (by decide) (by decide) (by decide) (by decide)
    (by decide) (by decide) (Or.inl (by decide)) (by decide) (by decide)
    (by decide) (by decide) (by decide) (by decide)

/-! ## Claim C6 -/

/-- Fixture for the C6 counterexample: a process entry with `args`
present but `env` absent. -/
def c6Proc : ProcessCfg := ⟨some false, some ["/bin/true"], none, "/", none⟩

/-- Fixture for the C6 counterexample. -/
def c6Spec : SpecCfg := ⟨⟨"/rootfs"⟩, none, none, some c6Proc, none, none⟩

/-- A child environment with one inherited variable. -/
def c6Cenv : ChildEnv :=
  ⟨true, true, true, true, true, true, true, true, true, [("HOME", "/root")]⟩

/-- Counterexample for C6 as stated: with a process entry whose
`process.env` is absent, the child does NOT clear the inherited
environment — the final environment still holds the inherited
variable and no clear step appears in the trace. -/
theorem c6_counterexample :
    (childRun c6Spec c6Cenv).2.2 = [("HOME", "/root")] ∧
    CEvent.clearEnv ∉ (childRun c6Spec c6Cenv).2.1 := by
  decide

/-- C6 (amended): after notifying the init-lock and before blocking on
the start-lock, the child clears every inherited environment variable
and then sets exactly the variables listed in `process.env` — but only
when `process.env` is present; when it is absent the inherited
environment is left untouched. -/
theorem c6_env_sanitation (spec : SpecCfg) (p : ProcessCfg) (cenv : ChildEnv)
    (cmd : String) (argvRest : List String)
    (hp : spec.process = some p) (hargs : p.args = some (cmd :: argvRest))
    (hnul : cmd.data.contains (Char.ofNat 0) = false)
    (h1 : cenv.startBindOk = true) (h2 : cenv.initConnectOk = true)
    (h3 : cenv.ptyOk = true) (h4 : cenv.mountRootfsOk = true)
    (h5 : cenv.mountDevicesOk = true) (h6 : cenv.createDevicesOk = true)
    (h7 : cenv.pivotOk = true) (h8 : cenv.setHostnameOk = true) :
    (∀ envs, p.env = some envs →
      (childRun spec cenv).2.2 = applyEnvList [] envs ∧
      ∃ pre post, (childRun spec cenv).2.1 =
        pre ++ (CEvent.clearEnv :: envs.filterMap (fun e =>
          (splitOnceEq e).map (fun kv => CEvent.setVar kv.1 kv.2))) ++
          (CEvent.waitStart :: post) ∧
        CEvent.notifyInit "0" ∈ pre) ∧
    (p.env = none →
      (childRun spec cenv).2.2 = cenv.inheritedEnv ∧
      CEvent.clearEnv ∉ (childRun spec cenv).2.1) := by
  obtain ⟨r, hchild⟩ : ∃ r, childRun spec cenv =
      (r, [.bindStart, .connectInit, .notifyInit "0", .closeInit] ++
        hostnameEvents spec ++ envSanEvents p ++ [.waitStart, .closeStart] ++
        userEvents p ++ [.chdirTo p.cwd], childFinalEnv p cenv) := by
    unfold childRun
    rw [h1, h2, h3, h4, h5, h6, h7, h8, hp]
    rw [if_neg (by simp), if_neg (by simp), if_neg (by simp),
      if_neg (by simp), if_neg (by simp), if_neg (by simp),
      if_neg (by simp), if_neg (by simp)]
    dsimp only
    rw [hargs]
    dsimp only
    rw [hnul]
    rw [if_neg (by simp)]
    by_cases he : cenv.execOk = true
    · exact ⟨.execed cmd, by rw [if_pos he]⟩
    · refine ⟨.exited 1, ?_⟩
      rw [if_neg he]
  constructor
  · intro envs henvs
    rw [hchild]
    constructor
    · show childFinalEnv p cenv = _
      unfold childFinalEnv
      rw [henvs]
    · refine ⟨[CEvent.bindStart, .connectInit, .notifyInit "0", .closeInit] ++
        hostnameEvents spec,
        CEvent.closeStart :: (userEvents p ++ [CEvent.chdirTo p.cwd]), ?_, by simp⟩
      show _ ++ envSanEvents p ++ _ ++ _ ++ _ = _
      unfold envSanEvents
      rw [henvs]
      simp [List.append_assoc]
  · intro hnone
    rw [hchild]
    constructor
    · show childFinalEnv p cenv = _
      unfold childFinalEnv
      rw [hnone]
    · show CEvent.clearEnv ∉ _ ++ envSanEvents p ++ _ ++ _ ++ _
      unfold envSanEvents
      rw [hnone]
      cases h9 : spec.hostname <;> cases h10 : p.user <;>
        simp [hostnameEvents, userEvents, h9, h10]

/-- Fixture for the C6 witness: `process.env = Some ["A=1"]`. -/
def c6eProc : ProcessCfg :=
  ⟨some false, some ["/bin/true"], some ["A=1"], "/", none⟩

/-- Fixture for the C6 witness. -/
def c6eSpec : SpecCfg := ⟨⟨"/rootfs"⟩, none, none, some c6eProc, none, none⟩

/-- Witness for C6 (amended) at a concrete configuration with one
`KEY=VALUE` entry. -/
theorem c6_witness :
    (childRun c6eSpec c6Cenv).2.2 = applyEnvList [] ["A=1"] ∧
    ∃ pre post, (childRun c6eSpec c6Cenv).2.1 =
      pre ++ (CEvent.clearEnv :: (["A=1"].filterMap (fun e =>
        (splitOnceEq e).map (fun kv => CEvent.setVar kv.1 kv.2)))) ++
        (CEvent.waitStart :: post) ∧
      CEvent.notifyInit "0" ∈ pre :=
  (c6_env_sanitation c6eSpec c6eProc c6Cenv "/bin/true" [] (by decide)
    (by decide) (by decide) (by decide) (by decide) (by decide) (by decide)
    (by decide) (by decide) (by decide) (by decide)).1 ["A=1"] (by decide)

/-- Witness for C3: a concrete successful run with child pid 7 over a
freshly created (empty) PID file. -/
theorem c3_witness :
    ∃ st, (createRun "/tmp/pura" "c1" "/b" specNil envAllOk emptyWorld).stateDoc
        = some st ∧
      st.status = .Created ∧ st.pid = envAllOk.childPid ∧ 0 < st.pid ∧
      (createRun "/tmp/pura" "c1" "/b" specNil envAllOk emptyWorld).pidFile
        = some (pidFileWrite envAllOk.childPid envAllOk.pidFileInit) ∧
      (envAllOk.pidFileInit.length ≤ (pidDigits envAllOk.childPid).length →
        (createRun "/tmp/pura" "c1" "/b" specNil envAllOk emptyWorld).pidFile
          = some (pidDigits envAllOk.childPid)) :=
  c3_created_state "/tmp/pura" "c1" "/b" specNil envAllOk emptyWorld
    (by decide) (by decide)

end Pura
